import Mathlib

/-!
Shallow embedding of the `Timer` class from `src/CallbackTimer.cpp` /
`CallbackTimer.h` (Arduino callback timer).

Modelling conventions:
* The external monotonic time source `millis()` is modelled by passing the
  current time `now : Nat` explicitly to every operation; all reads of
  `millis()` inside a single call observe the same value (the time source
  does not advance in the middle of a call).
* `unsigned long` is a 32-bit unsigned integer on the target (AVR Arduino);
  the only place where its wraparound semantics can matter is the
  subtraction `millis() - _last` in `getEllapsed`, modelled by `usub32`.
* `int _repetitionCount` is modelled as `Int` (its overflow regime is never
  exercised by the properties considered here).
* The callback function pointer `void (*_callback)()` is modelled as
  `Option α` for an abstract callback identifier type `α`; `none` is the
  null pointer.  An invocation of the stored pointer is recorded as an
  element of a fire list `List (Option α)`: `some a` is a real call of the
  action `a`, `none` records a call through a null pointer (undefined
  behaviour in the C++ source).
* Methods that mutate the object are state transformers `Timer α → Timer α`
  (paired with their C++ return value where there is one).  `isDone` and
  `isRunning` have the side effect of latching `_done`, so they also return
  the updated state, exactly as the C++ does.
-/

namespace CallbackTimer

/-- 2^32, the modulus of `unsigned long` arithmetic on the target. -/
def UL_MOD : Nat := 4294967296

/-- 32-bit unsigned subtraction `a - b` (the wraparound semantics of
`millis() - _last` in `getEllapsed`). -/
def usub32 (a b : Nat) : Nat := (a + UL_MOD - b % UL_MOD) % UL_MOD

/-- The private state of a `Timer` object (fields `_repeatMode`,
`_repetitionCount`, `_time`, `_last`, `_done`, `_started`, `_execOnce`,
`_callback` of class `Timer` in `CallbackTimer.h`). -/
structure Timer (α : Type) where
  repeatMode : Bool
  repetitionCount : Int
  time : Nat
  last : Nat
  done : Bool
  started : Bool
  execOnce : Bool
  callback : Option α
deriving DecidableEq

/-- A freshly constructed timer: `Timer() : _time(1000)`.  The C++ default
constructor leaves the other members value-uninitialised; a fresh object is
modelled in the all-clear state the specification assumes (not started, no
callback, no pending repeat state). -/
def fresh (α : Type) : Timer α :=
  { repeatMode := false, repetitionCount := 0, time := 1000, last := 0,
    done := false, started := false, execOnce := false, callback := none }

/-- `hasStarted()`: returns `_started`. -/
def hasStarted (s : Timer α) : Bool := s.started

/-- `getEllapsed()`: `millis() - _last` in 32-bit unsigned arithmetic. -/
def getEllapsed (now : Nat) (s : Timer α) : Nat := usub32 now s.last

/-- `isDone()`: if `hasStarted() && getEllapsed() >= _time` it latches
`_done = true` and returns `true`, otherwise returns `false`. -/
def isDone (now : Nat) (s : Timer α) : Bool × Timer α :=
  if s.started = true ∧ s.time ≤ getEllapsed now s then
    (true, { s with done := true })
  else
    (false, s)

/-- `isRunning()`: `hasStarted() && !isDone()` (with `&&` short-circuit:
`isDone` is only consulted when `_started` holds; its `_done`-latching side
effect is kept). -/
def isRunning (now : Nat) (s : Timer α) : Bool × Timer α :=
  if s.started = true then
    let r := isDone now s
    (!r.1, r.2)
  else
    (false, s)

/-- `set(duration)`: `_time = duration`. -/
def set (duration : Nat) (s : Timer α) : Timer α := { s with time := duration }

/-- `start()`: `_last = millis(); _done = false; _started = true`. -/
def start (now : Nat) (s : Timer α) : Timer α :=
  { s with last := now, done := false, started := true }

/-- `stop()`: `_done = isDone(); if (isRunning()) _last = millis();
_started = false; return getEllapsed();`. -/
def stop (now : Nat) (s : Timer α) : Nat × Timer α :=
  let d := isDone now s
  let s2 := { d.2 with done := d.1 }
  let r := isRunning now s2
  let s4 := if r.1 then { r.2 with last := now } else r.2
  let s5 := { s4 with started := false }
  (getEllapsed now s5, s5)

/-- `reset()`: `stop(); _done = isDone(); _last = millis();
_repetitionCount = 0; _callback = nullptr;` (the value returned by `stop`
is discarded). -/
def reset (now : Nat) (s : Timer α) : Timer α :=
  let s1 := (stop now s).2
  let d := isDone now s1
  let s3 := { d.2 with done := d.1 }
  { s3 with last := now, repetitionCount := 0, callback := none }

/-- `setTimeout(task)` (one-argument overload): fails if `isRunning()`,
otherwise stores the callback, clears `_repeatMode` and starts. -/
def setTimeoutTask (now : Nat) (task : α) (s : Timer α) : Bool × Timer α :=
  let r := isRunning now s
  if r.1 then
    (false, r.2)
  else
    let s2 := { r.2 with callback := some task, repeatMode := false }
    (true, start now s2)

/-- `setTimeout(delayPeriod, task)`: fails if `isRunning()`, otherwise
`set(delayPeriod)` followed by `setTimeout(task)` (which re-checks
`isRunning()`). -/
def setTimeout (now delayPeriod : Nat) (task : α) (s : Timer α) : Bool × Timer α :=
  let r := isRunning now s
  if r.1 then
    (false, r.2)
  else
    setTimeoutTask now task (set delayPeriod r.2)

/-- `setInterval(period, times, task)`: fails if `isRunning() || _execOnce`;
otherwise `reset()`, store the callback, `set(period)`, set
`_repetitionCount = times`, `_repeatMode = true` and `start()`. -/
def setInterval (now period : Nat) (times : Int) (task : α) (s : Timer α) :
    Bool × Timer α :=
  let r := isRunning now s
  if r.1 = true ∨ r.2.execOnce = true then
    (false, r.2)
  else
    let s2 := reset now r.2
    let s3 := set period { s2 with callback := some task }
    let s4 := { s3 with repetitionCount := times, repeatMode := true }
    (true, start now s4)

/-- `setInterval(period, task)`: `setInterval(period, -1, task)`. -/
def setIntervalInf (now period : Nat) (task : α) (s : Timer α) : Bool × Timer α :=
  setInterval now period (-1) task s

/-- `tick()`: the per-loop poll.  Returns the new state together with the
list of callback-pointer invocations this call performed, in order. -/
def tick (now : Nat) (s : Timer α) : Timer α × List (Option α) :=
  let step1 :=
    if s.repeatMode = true ∧ s.execOnce = false then
      (({ s with execOnce := true, repetitionCount := s.repetitionCount - 1 } :
          Timer α),
       [s.callback])
    else
      (s, ([] : List (Option α)))
  let s1 := step1.1
  let f1 := step1.2
  let d := isDone now s1
  let s2 := d.2
  if d.1 then
    match s2.callback with
    | none => (s2, f1)
    | some _ =>
      if s2.repeatMode = false then
        (reset now s2, f1 ++ [s2.callback])
      else if s2.repetitionCount ≠ 0 then
        (start now { s2 with repetitionCount := s2.repetitionCount - 1 },
         f1 ++ [s2.callback])
      else
        let s3 := reset now s2
        ({ s3 with repetitionCount := s2.repetitionCount }, f1)
  else
    (s2, f1)

/-- Iterate `tick` over a list of poll times, collecting all fires. -/
def run : Timer α → List Nat → Timer α × List (Option α)
  | s, [] => (s, [])
  | s, n :: ns =>
    let t := tick n s
    let r := run t.1 ns
    (r.1, t.2 ++ r.2)

/-- The poll times `t0, t0+1, ..., t0+m-1`: polling once per millisecond
("continuous" polling at the time source's resolution). -/
def timesFrom (t0 : Nat) : Nat → List Nat
  | 0 => []
  | m + 1 => t0 :: timesFrom (t0 + 1) m

/-! ### Basic arithmetic lemmas -/

theorem usub32_eq_sub {a b : Nat} (hba : b ≤ a) (ha : a < UL_MOD) :
    usub32 a b = a - b := by
  simp only [usub32, UL_MOD] at *
  omega

theorem usub32_self (a : Nat) : usub32 a a = 0 := by
  simp only [usub32, UL_MOD]
  omega

/-! ### Query lemmas -/

theorem isRunning_eq_true {s : Timer α} {now : Nat}
    (h : (isRunning now s).1 = true) :
    s.started = true ∧ ¬ s.time ≤ getEllapsed now s ∧ isRunning now s = (true, s) := by
  by_cases hs : s.started = true
  · by_cases hd : s.time ≤ getEllapsed now s
    · simp [isRunning, isDone, hs, hd] at h
    · simp [isRunning, isDone, hs, hd]
  · simp [isRunning, hs] at h

theorem isRunning_of_not_started {s : Timer α} {now : Nat}
    (h : s.started = false) : isRunning now s = (false, s) := by
  simp [isRunning, h]

/-! ### `stop` case analysis -/

theorem stop_spec_running {s : Timer α} {n : Nat} (hs : s.started = true)
    (hd : ¬ s.time ≤ usub32 n s.last) :
    stop n s = (usub32 n n, { s with done := false, last := n, started := false }) := by
  simp [stop, isRunning, isDone, getEllapsed, hs, hd]

theorem stop_spec_done {s : Timer α} {n : Nat} (hs : s.started = true)
    (hd : s.time ≤ usub32 n s.last) :
    stop n s = (usub32 n s.last, { s with done := true, started := false }) := by
  simp [stop, isRunning, isDone, getEllapsed, hs, hd]

theorem stop_spec_stopped {s : Timer α} {n : Nat} (hs : s.started = false) :
    stop n s = (usub32 n s.last, { s with done := false, started := false }) := by
  simp [stop, isRunning, isDone, getEllapsed, hs]

theorem stop_started_eq_false (s : Timer α) (n : Nat) :
    (stop n s).2.started = false := rfl

/-! ### State-transition lemmas -/

theorem stop_preserves (s : Timer α) (n : Nat) :
    (stop n s).2.repeatMode = s.repeatMode ∧
    (stop n s).2.repetitionCount = s.repetitionCount ∧
    (stop n s).2.time = s.time ∧
    (stop n s).2.execOnce = s.execOnce ∧
    (stop n s).2.callback = s.callback := by
  by_cases hs : s.started = true
  · by_cases hd : s.time ≤ usub32 n s.last
    · rw [stop_spec_done hs hd]; exact ⟨rfl, rfl, rfl, rfl, rfl⟩
    · rw [stop_spec_running hs hd]; exact ⟨rfl, rfl, rfl, rfl, rfl⟩
  · rw [stop_spec_stopped (by simpa using hs)]; exact ⟨rfl, rfl, rfl, rfl, rfl⟩

theorem reset_spec_stopped {s : Timer α} (hs : s.started = false) (now : Nat) :
    reset now s = { s with
      done := false, started := false, last := now,
      repetitionCount := 0, callback := none } := by
  simp [reset, stop_spec_stopped hs, isDone]

/-- The state of a repeating timer immediately after a successful
`setInterval` at time `t0` with period `p`, count `k` and action `A`:
started, first-fire guard not yet consumed. -/
def repStart (p : Nat) (A : α) (t0 : Nat) (k : Int) : Timer α :=
  { repeatMode := true, repetitionCount := k, time := p, last := t0,
    done := false, started := true, execOnce := false, callback := some A }

/-- A successful `setInterval(period, times, task)` call: resulting state. -/
theorem setInterval_spec {s : Timer α} (hs : s.started = false)
    (he : s.execOnce = false) (now p : Nat) (c : Int) (A : α) :
    setInterval now p c A s = (true, repStart p A now c) := by
  simp [setInterval, isRunning_of_not_started hs, he, reset_spec_stopped hs,
    set, start, repStart]

/-- The first-fire branch of `tick` runs even when the timer is stopped:
it tests only `_repeatMode` and `_execOnce`, not `_started`. -/
theorem tick_first_fire_stopped {s : Timer α} (hr : s.repeatMode = true)
    (he : s.execOnce = false) (hs : s.started = false) (now : Nat) :
    tick now s =
      ({ s with execOnce := true, repetitionCount := s.repetitionCount - 1 },
       [s.callback]) := by
  simp [tick, isDone, hr, he, hs]

theorem isDone_not_started {s : Timer α} (hs : s.started = false) (now : Nat) :
    isDone now s = (false, s) := by
  simp [isDone, hs]

theorem reset_spec (s : Timer α) (n : Nat) :
    reset n s = { (stop n s).2 with
      done := false, last := n, repetitionCount := 0, callback := none } := by
  simp [reset, isDone_not_started (stop_started_eq_false s n)]

theorem reset_preserves (s : Timer α) (n : Nat) :
    (reset n s).repeatMode = s.repeatMode ∧ (reset n s).time = s.time ∧
    (reset n s).execOnce = s.execOnce ∧ (reset n s).callback = none ∧
    (reset n s).started = false ∧ (reset n s).repetitionCount = 0 := by
  obtain ⟨h1, -, h3, h4, -⟩ := stop_preserves s n
  rw [reset_spec]
  exact ⟨h1, h3, h4, rfl, rfl, rfl⟩

/-! ### Run infrastructure -/

theorem run_nil (s : Timer α) : run s [] = (s, []) := rfl

theorem run_cons (s : Timer α) (n : Nat) (ns : List Nat) :
    run s (n :: ns) =
      ((run (tick n s).1 ns).1, (tick n s).2 ++ (run (tick n s).1 ns).2) := rfl

theorem run_append (s : Timer α) (l1 l2 : List Nat) :
    run s (l1 ++ l2) =
      ((run (run s l1).1 l2).1, (run s l1).2 ++ (run (run s l1).1 l2).2) := by
  induction l1 generalizing s with
  | nil => simp [run]
  | cons n ns ih => simp [run_cons, ih, List.append_assoc]

theorem run_append_eq {s s1 s2 : Timer α} {l1 l2 : List Nat}
    {f1 f2 : List (Option α)} (h1 : run s l1 = (s1, f1))
    (h2 : run s1 l2 = (s2, f2)) : run s (l1 ++ l2) = (s2, f1 ++ f2) := by
  rw [run_append, h1]
  simp only
  rw [h2]

theorem timesFrom_append (t0 a b : Nat) :
    timesFrom t0 (a + b) = timesFrom t0 a ++ timesFrom (t0 + a) b := by
  induction a generalizing t0 with
  | zero => simp [timesFrom]
  | succ a ih =>
    rw [show a + 1 + b = (a + b) + 1 from by omega]
    rw [timesFrom, timesFrom, ih]
    rw [show t0 + 1 + a = t0 + (a + 1) from by omega]
    rfl

theorem run_timesFrom_split {s s1 s2 : Timer α} {f1 f2 : List (Option α)}
    (t0 a b m : Nat) (hm : m = a + b)
    (h1 : run s (timesFrom t0 a) = (s1, f1))
    (h2 : run s1 (timesFrom (t0 + a) b) = (s2, f2)) :
    run s (timesFrom t0 m) = (s2, f1 ++ f2) := by
  subst hm
  rw [timesFrom_append]
  exact run_append_eq h1 h2

/-! ### Canonical repeating-mode states and their `tick` behaviour -/

/-- A repeating timer that has consumed its first-fire guard and is armed:
started, not done, `k` repetitions remaining, last (re)start at `l`. -/
def repArmed (p : Nat) (A : α) (l : Nat) (k : Int) : Timer α :=
  { repeatMode := true, repetitionCount := k, time := p, last := l,
    done := false, started := true, execOnce := true, callback := some A }

/-- A counted repeating timer whose repetition counter has been exhausted:
stopped, callback cleared, counter observably zero, guard still set. -/
def repDead (p l : Nat) : Timer α :=
  { repeatMode := true, repetitionCount := 0, time := p, last := l,
    done := false, started := false, execOnce := true, callback := none }

theorem tick_repFresh (p : Nat) (A : α) (t0 : Nat) (k : Int) (hp : 0 < p) :
    tick t0 (repStart p A t0 k) = (repArmed p A t0 (k - 1), [some A]) := by
  have hc : ¬ p ≤ usub32 t0 t0 := by rw [usub32_self]; omega
  simp [tick, isDone, getEllapsed, repStart, repArmed, hc]

theorem tick_repArmed_idle {p l τ : Nat} (A : α) (k : Int) (h1 : l ≤ τ)
    (h2 : τ < l + p) (hW : τ < UL_MOD) :
    tick τ (repArmed p A l k) = (repArmed p A l k, []) := by
  have hu : usub32 τ l = τ - l := usub32_eq_sub h1 hW
  have hc : ¬ p ≤ τ - l := by omega
  simp [tick, isDone, getEllapsed, repArmed, hu, hc]

theorem tick_repArmed_fire {p l τ : Nat} (A : α) (k : Int) (h1 : l + p ≤ τ)
    (hW : τ < UL_MOD) (hk : k ≠ 0) :
    tick τ (repArmed p A l k) = (repArmed p A τ (k - 1), [some A]) := by
  have hu : usub32 τ l = τ - l := usub32_eq_sub (by omega) hW
  have hc : p ≤ τ - l := by omega
  simp [tick, isDone, getEllapsed, repArmed, start, hu, hc, hk]

theorem tick_repArmed_exhaust {p l τ : Nat} (A : α) (h1 : l + p ≤ τ)
    (hW : τ < UL_MOD) :
    tick τ (repArmed p A l 0) = (repDead p τ, []) := by
  have hu : usub32 τ l = τ - l := usub32_eq_sub (by omega) hW
  have hc : p ≤ τ - l := by omega
  simp [tick, isDone, getEllapsed, repArmed, repDead, reset, stop, isRunning,
    hu, hc]

theorem tick_repDead (p l τ : Nat) :
    tick τ (repDead p l : Timer α) = (repDead p l, []) := by
  simp [tick, isDone, repDead]

theorem run_repDead (p l : Nat) (ts : List Nat) :
    run (repDead p l : Timer α) ts = (repDead p l, []) := by
  induction ts with
  | nil => rfl
  | cons n ns ih => simp [run_cons, tick_repDead, ih]

theorem run_repArmed_idle {p l : Nat} (A : α) (k : Int) :
    ∀ (c τ0 : Nat), l ≤ τ0 → τ0 + c ≤ l + p → l + p ≤ UL_MOD →
      run (repArmed p A l k) (timesFrom τ0 c) = (repArmed p A l k, []) := by
  intro c
  induction c with
  | zero => intro τ0 _ _ _; rfl
  | succ c ih =>
    intro τ0 h1 h2 h3
    rw [timesFrom, run_cons, tick_repArmed_idle A k h1 (by omega) (by omega)]
    rw [ih (τ0 + 1) (by omega) (by omega) h3]
    rfl

theorem run_repArmed_period (p l τ0 : Nat) (A : α) (k : Int) (hτ : τ0 = l + 1)
    (hp : 0 < p) (hk : k ≠ 0) (hW : l + p < UL_MOD) :
    run (repArmed p A l k) (timesFrom τ0 p) =
      (repArmed p A (l + p) (k - 1), [some A]) := by
  subst hτ
  obtain ⟨q, rfl⟩ : ∃ q, p = q + 1 := ⟨p - 1, by omega⟩
  rw [timesFrom_append (l + 1) q 1]
  refine run_append_eq (run_repArmed_idle A k q (l + 1) (by omega) (by omega)
    (by omega)) ?_
  rw [show l + 1 + q = l + (q + 1) from by omega]
  rw [timesFrom, run_cons,
    tick_repArmed_fire A k (by omega) (by omega) hk]
  rfl

/-! ### Canonical one-shot states and their `tick` behaviour -/

/-- An armed one-shot timer: started at `l` with delay `D` and action `A`.
`e` and `r` are the `_execOnce` and `_repetitionCount` values inherited from
the previous state (`setTimeout` does not touch them). -/
def osArmed (D : Nat) (A : α) (l : Nat) (e : Bool) (r : Int) : Timer α :=
  { repeatMode := false, repetitionCount := r, time := D, last := l,
    done := false, started := true, execOnce := e, callback := some A }

/-- A one-shot timer after its single fire: reset, callback cleared. -/
def osDead (D l : Nat) (e : Bool) : Timer α :=
  { repeatMode := false, repetitionCount := 0, time := D, last := l,
    done := false, started := false, execOnce := e, callback := none }

/-- A successful `setTimeout(delayPeriod, task)` call: resulting state. -/
theorem setTimeout_spec {s : Timer α} (hs : s.started = false)
    (t0 D : Nat) (A : α) :
    setTimeout t0 D A s =
      (true, osArmed D A t0 s.execOnce s.repetitionCount) := by
  simp [setTimeout, setTimeoutTask, isRunning, isDone, set, start, osArmed,
    hs]

theorem tick_osArmed_idle {D l τ : Nat} (A : α) (e : Bool) (r : Int)
    (h1 : l ≤ τ) (h2 : τ < l + D) (hW : τ < UL_MOD) :
    tick τ (osArmed D A l e r) = (osArmed D A l e r, []) := by
  have hu : usub32 τ l = τ - l := usub32_eq_sub h1 hW
  have hc : ¬ D ≤ τ - l := by omega
  simp [tick, isDone, getEllapsed, osArmed, hu, hc]

theorem tick_osArmed_fire {D l τ : Nat} (A : α) (e : Bool) (r : Int)
    (h1 : l + D ≤ τ) (hW : τ < UL_MOD) :
    tick τ (osArmed D A l e r) = (osDead D τ e, [some A]) := by
  have hu : usub32 τ l = τ - l := usub32_eq_sub (by omega) hW
  have hc : D ≤ τ - l := by omega
  simp [tick, isDone, getEllapsed, osArmed, osDead, reset, stop, isRunning,
    hu, hc]

theorem tick_osDead (D l τ : Nat) (e : Bool) :
    tick τ (osDead D l e : Timer α) = (osDead D l e, []) := by
  simp [tick, isDone, osDead]

theorem run_osDead (D l : Nat) (e : Bool) (ts : List Nat) :
    run (osDead D l e : Timer α) ts = (osDead D l e, []) := by
  induction ts with
  | nil => rfl
  | cons n ns ih => simp [run_cons, tick_osDead, ih]

theorem run_osArmed_idle {D l : Nat} (A : α) (e : Bool) (r : Int) :
    ∀ (c τ0 : Nat), l ≤ τ0 → τ0 + c ≤ l + D → l + D ≤ UL_MOD →
      run (osArmed D A l e r) (timesFrom τ0 c) = (osArmed D A l e r, []) := by
  intro c
  induction c with
  | zero => intro τ0 _ _ _; rfl
  | succ c ih =>
    intro τ0 h1 h2 h3
    rw [timesFrom, run_cons, tick_osArmed_idle A e r h1 (by omega) (by omega)]
    rw [ih (τ0 + 1) (by omega) (by omega) h3]
    rfl

/-! ### Claim theorems -/

/-- C7: `set(duration)` may be called in any state and modifies only the
`_time` (duration) attribute: `_last`, `_started`, `_done`, `_repeatMode`,
`_repetitionCount`, `_execOnce` (the first-fire guard) and `_callback` are
all unchanged by it. -/
theorem set_only_duration (s : Timer α) (d : Nat) :
    (set d s).time = d ∧ (set d s).last = s.last ∧
    (set d s).started = s.started ∧ (set d s).done = s.done ∧
    (set d s).repeatMode = s.repeatMode ∧
    (set d s).repetitionCount = s.repetitionCount ∧
    (set d s).execOnce = s.execOnce ∧ (set d s).callback = s.callback :=
  ⟨rfl, rfl, rfl, rfl, rfl, rfl, rfl, rfl⟩

/-- C10: `stop()` called on a running timer (started, elapsed time below
duration) first refreshes `_last` to the current time and only then computes
the return value `getEllapsed()`, so it returns `0` rather than the time
elapsed since the timer was started (all `millis()` reads of the call see
the same value). -/
theorem stop_running_returns_zero (s : Timer α) (n : Nat)
    (h : (isRunning n s).1 = true) :
    (stop n s).1 = 0 ∧ (stop n s).2.last = n := by
  obtain ⟨hs, hd, -⟩ := isRunning_eq_true h
  simp only [getEllapsed] at hd
  rw [stop_spec_running hs hd]
  simp [usub32_self]

/-- Witness for C10 at a concrete input: a one-shot timer with duration 100
scheduled at time 0, stopped at time 50. -/
theorem stop_running_returns_zero_witness :
    (stop 50 (setTimeout 0 100 (1 : Nat) (fresh Nat)).2).1 = 0 ∧
    (stop 50 (setTimeout 0 100 (1 : Nat) (fresh Nat)).2).2.last = 50 :=
  stop_running_returns_zero _ 50 (by decide)

/-- C5: while a timer `isRunning()`, each of the four schedule entry points
(`setTimeout` in both overloads, `setInterval` in both overloads) returns
`false` and leaves the timer state completely unchanged. -/
theorem busy_schedule_rejected (s : Timer α) (now d p : Nat) (c : Int)
    (A B : α) (h : (isRunning now s).1 = true) :
    setTimeout now d A s = (false, s) ∧ setTimeoutTask now A s = (false, s) ∧
    setIntervalInf now p B s = (false, s) ∧
    setInterval now p c B s = (false, s) := by
  obtain ⟨-, -, hrun⟩ := isRunning_eq_true h
  refine ⟨?_, ?_, ?_, ?_⟩ <;>
    simp [setTimeout, setTimeoutTask, setIntervalInf, setInterval, hrun]

/-- Witness for C5 at a concrete input: a one-shot timer with duration 100
scheduled at time 0 is busy at time 50 and rejects all four schedule calls
without any state change. -/
theorem busy_schedule_rejected_witness :
    setTimeout 50 7 2 (setTimeout 0 100 (1 : Nat) (fresh Nat)).2 =
      (false, (setTimeout 0 100 (1 : Nat) (fresh Nat)).2) ∧
    setTimeoutTask 50 2 (setTimeout 0 100 (1 : Nat) (fresh Nat)).2 =
      (false, (setTimeout 0 100 (1 : Nat) (fresh Nat)).2) ∧
    setIntervalInf 50 7 3 (setTimeout 0 100 (1 : Nat) (fresh Nat)).2 =
      (false, (setTimeout 0 100 (1 : Nat) (fresh Nat)).2) ∧
    setInterval 50 7 5 3 (setTimeout 0 100 (1 : Nat) (fresh Nat)).2 =
      (false, (setTimeout 0 100 (1 : Nat) (fresh Nat)).2) :=
  busy_schedule_rejected _ 50 7 7 5 2 3 (by decide)

/-- C6: two consecutive `stop()` calls with no intervening start, under a
monotonically non-decreasing time source: `isRunning()` is `false`
immediately after each call (at any query time), and the elapsed time
returned by the second call is at least the one returned by the first. -/
theorem stop_twice_idempotent (s : Timer α) (n1 n2 τ1 τ2 : Nat)
    (hl : s.last ≤ n1) (h12 : n1 ≤ n2) (hW : n2 < UL_MOD) :
    (isRunning τ1 (stop n1 s).2).1 = false ∧
    (isRunning τ2 (stop n2 (stop n1 s).2).2).1 = false ∧
    (stop n1 s).1 ≤ (stop n2 (stop n1 s).2).1 := by
  refine ⟨?_, ?_, ?_⟩
  · rw [isRunning_of_not_started (stop_started_eq_false s n1)]
  · rw [isRunning_of_not_started (stop_started_eq_false _ n2)]
  · by_cases hs : s.started = true
    · by_cases hd : s.time ≤ usub32 n1 s.last
      · rw [stop_spec_done hs hd, stop_spec_stopped (by rfl)]
        simp only
        rw [usub32_eq_sub hl (by omega), usub32_eq_sub (by omega) hW]
        omega
      · rw [stop_spec_running hs hd, stop_spec_stopped (by rfl)]
        simp only [usub32_self]
        exact Nat.zero_le _
    · rw [stop_spec_stopped (by simpa using hs), stop_spec_stopped (by rfl)]
      simp only
      rw [usub32_eq_sub hl (by omega), usub32_eq_sub (by omega) hW]
      omega

/-- C1: `setInterval(p, 3, A)` on a fresh timer succeeds; the first poll
fires immediately (before any elapsed-time check); polling once per
millisecond while the time source advances across at least 3 full periods
invokes the action exactly 3 times in total; afterwards the timer is in the
exhausted terminal state, `isRunning()` is `false`, and any sequence of
further polls fires nothing and leaves `isRunning()` `false`. -/
theorem counted_repeat_terminates (p t0 m : Nat) (A : α) (s : Timer α)
    (ts : List Nat) (τ1 τ2 : Nat) (hp : 0 < p) (hm : 3 * p ≤ m)
    (hW : t0 + m < UL_MOD) (hs : s.started = false) (he : s.execOnce = false) :
    (setInterval t0 p 3 A s).1 = true ∧
    (tick t0 (setInterval t0 p 3 A s).2).2 = [some A] ∧
    run (setInterval t0 p 3 A s).2 (timesFrom t0 (m + 1)) =
      (repDead p (t0 + 3 * p), [some A, some A, some A]) ∧
    (isRunning τ1
      (run (setInterval t0 p 3 A s).2 (timesFrom t0 (m + 1))).1).1 = false ∧
    (run (run (setInterval t0 p 3 A s).2 (timesFrom t0 (m + 1))).1 ts).2 =
      [] ∧
    (isRunning τ2
      (run (run (setInterval t0 p 3 A s).2 (timesFrom t0 (m + 1))).1
        ts).1).1 = false := by
  simp only [setInterval_spec hs he]
  have h0 : run (repStart p A t0 3) (timesFrom t0 1) =
      (repArmed p A t0 2, [some A]) := by
    have ht := tick_repFresh p A t0 3 hp
    rw [show (3 : Int) - 1 = 2 from by norm_num] at ht
    show run _ [t0] = _
    rw [run_cons, ht]
    rfl
  have hW1 : t0 + p < UL_MOD := by omega
  have hW2 : t0 + p + p < UL_MOD := by omega
  have h1 : run (repArmed p A t0 2) (timesFrom (t0 + 1) p) =
      (repArmed p A (t0 + p) 1, [some A]) := by
    have hr := run_repArmed_period p t0 (t0 + 1) A 2 rfl hp (by norm_num) hW1
    rw [show (2 : Int) - 1 = 1 from by norm_num] at hr
    exact hr
  have h2 : run (repArmed p A (t0 + p) 1) (timesFrom (t0 + 1 + p) p) =
      (repArmed p A (t0 + 2 * p) 0, [some A]) := by
    have hr := run_repArmed_period p (t0 + p) (t0 + 1 + p) A 1 (by omega) hp
      (by norm_num) hW2
    rw [show (1 : Int) - 1 = 0 from by norm_num,
      show t0 + p + p = t0 + 2 * p from by omega] at hr
    exact hr
  have h3 : run (repArmed p A (t0 + 2 * p) 0)
      (timesFrom (t0 + 1 + p + p) (p - 1 + (1 + (m - 3 * p)))) =
      (repDead p (t0 + 3 * p), []) := by
    refine run_timesFrom_split _ (p - 1) (1 + (m - 3 * p)) _ rfl
      (run_repArmed_idle A 0 (p - 1) (t0 + 1 + p + p) (by omega) (by omega)
        (by omega)) ?_
    rw [show t0 + 1 + p + p + (p - 1) = t0 + 3 * p from by omega,
      show 1 + (m - 3 * p) = m - 3 * p + 1 from by omega]
    rw [timesFrom, run_cons, tick_repArmed_exhaust A (by omega) (by omega)]
    rw [run_repDead]
    rfl
  have big : run (repStart p A t0 3) (timesFrom t0 (m + 1)) =
      (repDead p (t0 + 3 * p), [some A, some A, some A]) :=
    run_timesFrom_split t0 1 m (m + 1) (by omega) h0
      (run_timesFrom_split (t0 + 1) p (p + (p - 1 + (1 + (m - 3 * p)))) m
        (by omega) h1
        (run_timesFrom_split (t0 + 1 + p) p (p - 1 + (1 + (m - 3 * p))) _
          rfl h2 h3))
  refine ⟨trivial, ?_, ?_, ?_, ?_, ?_⟩
  · rw [tick_repFresh p A t0 3 hp]
  · exact big
  · rw [big]
    exact congrArg Prod.fst (isRunning_of_not_started rfl)
  · rw [big]
    show (run (repDead p (t0 + 3 * p)) ts).2 = []
    rw [run_repDead]
  · rw [big]
    show (isRunning τ2 (run (repDead p (t0 + 3 * p)) ts).1).1 = false
    rw [run_repDead]
    exact congrArg Prod.fst (isRunning_of_not_started rfl)

/-- Witness for C1 at a concrete input: `setInterval(2, 3, A)` at time 0 on
a fresh timer, polled every millisecond through time 6 and then twice more
at times 20 and 21. -/
theorem counted_repeat_terminates_witness :
    (setInterval 0 2 3 (7 : Nat) (fresh Nat)).1 = true ∧
    (tick 0 (setInterval 0 2 3 (7 : Nat) (fresh Nat)).2).2 = [some 7] ∧
    run (setInterval 0 2 3 (7 : Nat) (fresh Nat)).2 (timesFrom 0 (6 + 1)) =
      (repDead 2 (0 + 3 * 2), [some 7, some 7, some 7]) ∧
    (isRunning 50
      (run (setInterval 0 2 3 (7 : Nat) (fresh Nat)).2
        (timesFrom 0 (6 + 1))).1).1 = false ∧
    (run (run (setInterval 0 2 3 (7 : Nat) (fresh Nat)).2
      (timesFrom 0 (6 + 1))).1 [20, 21]).2 = [] ∧
    (isRunning 60
      (run (run (setInterval 0 2 3 (7 : Nat) (fresh Nat)).2
        (timesFrom 0 (6 + 1))).1 [20, 21]).1).1 = false :=
  counted_repeat_terminates 2 0 6 7 (fresh Nat) [20, 21] 50 60 (by decide)
    (by decide) (by decide) rfl rfl

/-- `tick` on a non-repeating timer: the mode stays non-repeating, the
stored callback is either kept or cleared, and every pointer invocation the
call performs goes through the currently stored callback. -/
theorem tick_oneShot_frame {s : Timer α} (hr : s.repeatMode = false)
    (τ : Nat) :
    (tick τ s).1.repeatMode = false ∧
    ((tick τ s).1.callback = s.callback ∨ (tick τ s).1.callback = none) ∧
    ∀ x ∈ (tick τ s).2, x = s.callback := by
  by_cases hd : s.started = true ∧ s.time ≤ getEllapsed τ s
  · cases hc : s.callback with
    | none => simp [tick, hr, isDone, hd, hc]
    | some a =>
      have ht : tick τ s = (reset τ { s with done := true }, [some a]) := by
        simp [tick, isDone, hr, hd, hc]
      obtain ⟨p1, -, -, p4, -, -⟩ :=
        reset_preserves ({ s with done := true }) τ
      rw [ht]
      refine ⟨p1.trans hr, Or.inr p4, ?_⟩
      intro x hx
      exact List.mem_singleton.mp hx
  · simp [tick, hr, isDone, hd]

/-- Running only `tick`s from a non-repeating state whose stored callback
is not `A` never invokes `A`. -/
theorem run_oneShot_avoids (A : α) (ts : List Nat) :
    ∀ s : Timer α, s.repeatMode = false → s.callback ≠ some A →
      some A ∉ (run s ts).2 := by
  induction ts with
  | nil =>
    intro s h1 h2
    simp [run_nil]
  | cons n ns ih =>
    intro s h1 h2
    obtain ⟨m1, m2, m3⟩ := tick_oneShot_frame h1 n
    rw [run_cons]
    intro hmem
    simp only [List.mem_append] at hmem
    rcases hmem with h | h
    · exact h2 (m3 _ h).symm
    · refine ih (tick n s).1 m1 ?_ h
      rcases m2 with h' | h'
      · rw [h']; exact h2
      · rw [h']; simp

/-- Rescheduling with the one-argument `setTimeout(task)` overload on a
one-shot timer whose deadline has elapsed: succeeds and installs the new
callback, dropping the old one. -/
theorem setTimeoutTask_osArmed {D l now : Nat} (A B : α) (e : Bool) (r : Int)
    (h1 : l + D ≤ now) (hW : now < UL_MOD) :
    setTimeoutTask now B (osArmed D A l e r) = (true, osArmed D B now e r) := by
  have hu : usub32 now l = now - l := usub32_eq_sub (by omega) hW
  have hc : D ≤ now - l := by omega
  simp [setTimeoutTask, isRunning, isDone, getEllapsed, osArmed, start, hu, hc]

theorem isRunning_osArmed_elapsed {D l now : Nat} (A : α) (e : Bool) (r : Int)
    (h1 : l + D ≤ now) (hW : now < UL_MOD) :
    (isRunning now (osArmed D A l e r)).1 = false := by
  have hu : usub32 now l = now - l := usub32_eq_sub (by omega) hW
  have hc : D ≤ now - l := by omega
  simp [isRunning, isDone, getEllapsed, osArmed, hu, hc]

/-- C8: after a one-shot schedule whose deadline has elapsed without a
poll, `isRunning()` is `false` (started but complete), so a new
`setTimeout(task)` call succeeds and replaces the still-pending callback;
the previously armed action is never invoked by any subsequent sequence of
polls. -/
theorem elapsed_one_shot_reschedule (D t0 now : Nat) (A B : α) (s : Timer α)
    (ts : List Nat) (hs : s.started = false) (hd : t0 + D ≤ now)
    (hW : now < UL_MOD) (hAB : A ≠ B) :
    (setTimeout t0 D A s).1 = true ∧
    (isRunning now (setTimeout t0 D A s).2).1 = false ∧
    (setTimeoutTask now B (setTimeout t0 D A s).2).1 = true ∧
    (setTimeoutTask now B (setTimeout t0 D A s).2).2.callback = some B ∧
    some A ∉ (run (setTimeoutTask now B (setTimeout t0 D A s).2).2 ts).2 := by
  simp only [setTimeout_spec hs]
  rw [setTimeoutTask_osArmed A B s.execOnce s.repetitionCount hd hW]
  refine ⟨trivial,
    isRunning_osArmed_elapsed A s.execOnce s.repetitionCount hd hW, rfl, rfl,
    ?_⟩
  exact run_oneShot_avoids A ts (osArmed D B now s.execOnce
    s.repetitionCount) rfl (fun h => hAB (Option.some.inj h).symm)

/-- Witness for C8 at a concrete input: `setTimeout(3, A)` at time 0, no
poll, reschedule with action `B` at time 10, then poll at times 11..15. -/
theorem elapsed_one_shot_reschedule_witness :
    (setTimeout 0 3 (7 : Nat) (fresh Nat)).1 = true ∧
    (isRunning 10 (setTimeout 0 3 (7 : Nat) (fresh Nat)).2).1 = false ∧
    (setTimeoutTask 10 8 (setTimeout 0 3 (7 : Nat) (fresh Nat)).2).1 = true ∧
    (setTimeoutTask 10 8
      (setTimeout 0 3 (7 : Nat) (fresh Nat)).2).2.callback = some 8 ∧
    some 7 ∉ (run (setTimeoutTask 10 8
      (setTimeout 0 3 (7 : Nat) (fresh Nat)).2).2 [11, 12, 13, 14, 15]).2 :=
  elapsed_one_shot_reschedule 3 0 10 7 8 (fresh Nat) [11, 12, 13, 14, 15]
    rfl (by decide) (by decide) (by decide)

/-- C2: `setTimeout(D, A)` on a fresh timer succeeds; polling once per
millisecond while the time source advances past `D` invokes `A` exactly
once (at the first poll whose elapsed time reaches `D`); afterwards
`isRunning()` is `false`, and any sequence of further polls fires nothing
and leaves `isRunning()` `false`. -/
theorem one_shot_fires_once (D t0 m : Nat) (A : α) (s : Timer α)
    (ts : List Nat) (τ1 τ2 : Nat) (hm : D ≤ m) (hW : t0 + m < UL_MOD)
    (hs : s.started = false) :
    (setTimeout t0 D A s).1 = true ∧
    run (setTimeout t0 D A s).2 (timesFrom t0 (m + 1)) =
      (osDead D (t0 + D) s.execOnce, [some A]) ∧
    (isRunning τ1
      (run (setTimeout t0 D A s).2 (timesFrom t0 (m + 1))).1).1 = false ∧
    (run (run (setTimeout t0 D A s).2 (timesFrom t0 (m + 1))).1 ts).2 = [] ∧
    (isRunning τ2
      (run (run (setTimeout t0 D A s).2 (timesFrom t0 (m + 1))).1 ts).1).1 =
      false := by
  simp only [setTimeout_spec hs]
  have big : run (osArmed D A t0 s.execOnce s.repetitionCount)
      (timesFrom t0 (m + 1)) = (osDead D (t0 + D) s.execOnce, [some A]) := by
    refine run_timesFrom_split t0 D (1 + (m - D)) (m + 1) (by omega)
      (run_osArmed_idle A s.execOnce s.repetitionCount D t0 (by omega)
        (by omega) (by omega)) ?_
    rw [show 1 + (m - D) = m - D + 1 from by omega]
    rw [timesFrom, run_cons, tick_osArmed_fire A s.execOnce s.repetitionCount
      (by omega) (by omega)]
    rw [run_osDead]
    rfl
  refine ⟨trivial, big, ?_, ?_, ?_⟩
  · rw [big]
    exact congrArg Prod.fst (isRunning_of_not_started rfl)
  · rw [big]
    show (run (osDead D (t0 + D) s.execOnce) ts).2 = []
    rw [run_osDead]
  · rw [big]
    show (isRunning τ2 (run (osDead D (t0 + D) s.execOnce) ts).1).1 = false
    rw [run_osDead]
    exact congrArg Prod.fst (isRunning_of_not_started rfl)

/-- Witness for C2 at a concrete input: `setTimeout(3, A)` at time 0 on a
fresh timer, polled every millisecond through time 5 and then at times 9
and 10. -/
theorem one_shot_fires_once_witness :
    (setTimeout 0 3 (7 : Nat) (fresh Nat)).1 = true ∧
    run (setTimeout 0 3 (7 : Nat) (fresh Nat)).2 (timesFrom 0 (5 + 1)) =
      (osDead 3 (0 + 3) false, [some 7]) ∧
    (isRunning 50
      (run (setTimeout 0 3 (7 : Nat) (fresh Nat)).2
        (timesFrom 0 (5 + 1))).1).1 = false ∧
    (run (run (setTimeout 0 3 (7 : Nat) (fresh Nat)).2
      (timesFrom 0 (5 + 1))).1 [9, 10]).2 = [] ∧
    (isRunning 60
      (run (run (setTimeout 0 3 (7 : Nat) (fresh Nat)).2
        (timesFrom 0 (5 + 1))).1 [9, 10]).1).1 = false :=
  one_shot_fires_once 3 0 5 7 (fresh Nat) [9, 10] 50 60 (by decide)
    (by decide) rfl

/-- C9: the immediate first fire of a repeating timer does not require the
timer to be started: after a successful `setInterval` followed by `stop()`
before any `tick`, the next `tick` still invokes the callback once (exactly
one invocation, of the scheduled action) and decrements the repetition
counter, because the first-fire branch of `tick` tests only `_repeatMode`
and `_execOnce`, not `_started`. -/
theorem stopped_repeat_first_fire (s : Timer α) (t0 n1 n2 p : Nat) (c : Int)
    (A : α) (hs : s.started = false) (he : s.execOnce = false) :
    (setInterval t0 p c A s).1 = true ∧
    (tick n2 (stop n1 (setInterval t0 p c A s).2).2).2 = [some A] ∧
    (tick n2 (stop n1 (setInterval t0 p c A s).2).2).1.repetitionCount =
      c - 1 := by
  rw [setInterval_spec hs he]
  obtain ⟨h1, h2, -, h4, h5⟩ := stop_preserves (repStart p A t0 c) n1
  rw [tick_first_fire_stopped h1 h4 (stop_started_eq_false _ n1)]
  exact ⟨rfl, by rw [h5]; rfl, by rw [h2]; rfl⟩

/-- Witness for C9 at a concrete input: `setInterval(100, 3, A)` at time 0,
`stop()` at time 4, `tick()` at time 9 fires the callback once and leaves
the repetition counter at 2. -/
theorem stopped_repeat_first_fire_witness :
    (setInterval 0 100 3 (7 : Nat) (fresh Nat)).1 = true ∧
    (tick 9 (stop 4 (setInterval 0 100 3 (7 : Nat) (fresh Nat)).2).2).2 =
      [some 7] ∧
    (tick 9 (stop 4 (setInterval 0 100 3 (7 : Nat)
      (fresh Nat)).2).2).1.repetitionCount = 3 - 1 :=
  stopped_repeat_first_fire (fresh Nat) 0 4 9 100 3 7 rfl rfl

/-- C3 (code bug): the single-fire guard `_execOnce` is set on the first
`tick` of a repeating cycle and never cleared anywhere, so after a counted
repeating sequence completes normally by exhausting its repetition counter
(timer no longer running, callback cleared, counter at zero), a subsequent
`setInterval` call is still rejected.  Concrete evaluation:
`setInterval(2, 3, A)` at time 0, ticks at times 0..8 fire exactly 3 times
and exhaust the counter; at time 100 the timer is not running, yet
`setInterval(2, 3, A)` returns `false` because `_execOnce` is still set. -/
theorem interval_guard_never_released :
    (setInterval 0 2 3 (7 : Nat) (fresh Nat)).1 = true ∧
    (run (setInterval 0 2 3 (7 : Nat) (fresh Nat)).2 (timesFrom 0 9)).2 =
      [some 7, some 7, some 7] ∧
    (isRunning 100
      (run (setInterval 0 2 3 (7 : Nat) (fresh Nat)).2 (timesFrom 0 9)).1).1 =
      false ∧
    (run (setInterval 0 2 3 (7 : Nat) (fresh Nat)).2
      (timesFrom 0 9)).1.callback = none ∧
    (run (setInterval 0 2 3 (7 : Nat) (fresh Nat)).2
      (timesFrom 0 9)).1.repetitionCount = 0 ∧
    (run (setInterval 0 2 3 (7 : Nat) (fresh Nat)).2
      (timesFrom 0 9)).1.execOnce = true ∧
    (setInterval 100 2 3 (7 : Nat)
      (run (setInterval 0 2 3 (7 : Nat) (fresh Nat)).2 (timesFrom 0 9)).1).1 =
      false := by
  decide

/-- C4 (code bug): the first-fire branch of `tick` calls `_callback()`
without a null check.  Concrete evaluation: `setInterval(100, 3, A)` at
time 0 followed by `reset()` at time 5 clears the callback to the null
pointer while `_repeatMode` is still set and `_execOnce` has not been
consumed; the next `tick` (time 6) then performs a call through the null
callback pointer (undefined behaviour in C++, recorded as `none`) and
mutates the state (`_repetitionCount` is decremented to `-1`), so it is not
a harmless no-op. -/
theorem reset_then_tick_null_callback :
    (reset 5 (setInterval 0 100 3 (7 : Nat) (fresh Nat)).2).callback = none ∧
    (tick 6 (reset 5 (setInterval 0 100 3 (7 : Nat) (fresh Nat)).2)).2 =
      [none] ∧
    (tick 6 (reset 5
      (setInterval 0 100 3 (7 : Nat) (fresh Nat)).2)).1.repetitionCount =
      -1 := by
  decide

/-- Witness for C6 at a concrete input: a running one-shot timer scheduled
at time 0, stopped at times 5 and 10. -/
theorem stop_twice_idempotent_witness :
    (isRunning 5 (stop 5 (setTimeout 0 100 (1 : Nat) (fresh Nat)).2).2).1 = false ∧
    (isRunning 10 (stop 10 (stop 5 (setTimeout 0 100 (1 : Nat) (fresh Nat)).2).2).2).1 = false ∧
    (stop 5 (setTimeout 0 100 (1 : Nat) (fresh Nat)).2).1 ≤
      (stop 10 (stop 5 (setTimeout 0 100 (1 : Nat) (fresh Nat)).2).2).1 :=
  stop_twice_idempotent _ 5 10 5 10 (by decide) (by decide) (by decide)

end CallbackTimer
